import Mathlib

/-!
Verification of the pcs-nova-driver core against its specification.

This file gives a shallow embedding of the relevant parts of
`pcsnovadriver/pcs/driver.py` and `pcsnovadriver/pcs/utils.py`:

* the VE power-state machine (`_wait_intermediate_state`, `_set_started_state`,
  `_set_stopped_state`, `_set_paused_state`, `_set_suspended_state`,
  `_sync_ve_state`);
* the snapshot orchestration (`PCSDriver.snapshot` / `_snapshot_ve`);
* the image pipeline helpers (`compress_ploop`, `uncompress_ploop`,
  `CPloopUploader`, `convert_image`, `get_boot_disk`);
* the VE lookup / error propagation paths (`_get_ve_by_name`, `destroy`,
  `unplug_vifs`, `get_info`, `pause`, `unpause`).

External effects (hypervisor SDK calls, spawned processes, the glance image
service) are modelled by explicit event traces; the outcome of an external
step that the code only observes (a process exit status, an upload result)
enters the model as a parameter.  Every SDK transition call in the source has
the shape `ve.op().wait()`, i.e. it is awaited to completion before the next
statement runs; a single trace element therefore stands for one completed
call.  Python 2 exception semantics is embedded explicitly where it matters:
a `finally` block always runs, and an exception raised inside `finally`
replaces the in-flight exception.
-/

namespace PcsNova

/-- VE states of the `prlsdkapi` state enumeration (the `VMS_*` constants
used by the driver). -/
inductive VmState
  | compacting
  | continuing
  | deletingState
  | migrating
  | paused
  | pausing
  | resetting
  | restoring
  | resuming
  | running
  | snapshoting
  | starting
  | stopped
  | stopping
  | suspended
  | suspendingSync
  | suspending
  deriving DecidableEq, Repr

/-- The `intermediate_states` list of `_wait_intermediate_state`
(driver.py lines 249-263). -/
def intermediate_states : List VmState :=
  [VmState.compacting, VmState.continuing, VmState.deletingState,
   VmState.migrating, VmState.pausing, VmState.resetting, VmState.restoring,
   VmState.resuming, VmState.snapshoting, VmState.starting, VmState.stopping,
   VmState.suspending, VmState.suspendingSync]

/-- A state is intermediate (transitional) iff it is in the
`intermediate_states` list. -/
def is_intermediate (s : VmState) : Bool :=
  intermediate_states.contains s

/-- Stop mode passed to `stop_ex`: `PSM_ACPI` or `PSM_KILL` (both used with
`PSF_FORCE`). -/
inductive StopMode
  | acpi
  | kill
  deriving DecidableEq, Repr

/-- A completed hypervisor transition call (each call in the source is of the
form `sdk_ve.op(...).wait()`). -/
inductive SdkCall
  | start
  | stopEx (mode : StopMode)
  | suspend
  | resume
  | pause
  deriving DecidableEq, Repr

/-- Mode selection of `_stop` (driver.py lines 226-230): `kill=True` maps to
`PSM_KILL`, otherwise `PSM_ACPI`. -/
def stop_mode (kill : Bool) : StopMode :=
  if kill then StopMode.kill else StopMode.acpi

/-- Calls issued by `PCSDriver._start`. -/
def py_start : List SdkCall := [SdkCall.start]

/-- Calls issued by `PCSDriver._stop`. -/
def py_stop (kill : Bool) : List SdkCall := [SdkCall.stopEx (stop_mode kill)]

/-- Calls issued by `PCSDriver._suspend`. -/
def py_suspend : List SdkCall := [SdkCall.suspend]

/-- Calls issued by `PCSDriver._resume`. -/
def py_resume : List SdkCall := [SdkCall.resume]

/-- Calls issued by `PCSDriver._pause`. -/
def py_pause : List SdkCall := [SdkCall.pause]

/-- Calls issued by `PCSDriver._unpause`: the source calls
`sdk_ve.start().wait()`. -/
def py_unpause : List SdkCall := [SdkCall.start]

/-- Transition calls issued by the branch chain of `_set_started_state`
(driver.py lines 273-283) as a function of the state observed after the
wait loop. -/
def set_started_actions (state : VmState) : List SdkCall :=
  if state = VmState.stopped then py_start
  else if state = VmState.suspended then py_resume
  else if state = VmState.paused then py_unpause
  else []

/-- Transition calls issued by the branch chain of `_set_stopped_state`
(driver.py lines 285-297). -/
def set_stopped_actions (state : VmState) (kill : Bool) : List SdkCall :=
  if state = VmState.running then py_stop kill
  else if state = VmState.suspended then py_resume ++ py_stop kill
  else if state = VmState.paused then py_unpause ++ py_stop kill
  else []

/-- Transition calls issued by the branch chain of `_set_paused_state`
(driver.py lines 299-311). -/
def set_paused_actions (state : VmState) : List SdkCall :=
  if state = VmState.running then py_pause
  else if state = VmState.suspended then py_resume ++ py_pause
  else if state = VmState.stopped then py_start ++ py_pause
  else []

/-- Transition calls issued by the branch chain of `_set_suspended_state`
(driver.py lines 313-325). -/
def set_suspended_actions (state : VmState) : List SdkCall :=
  if state = VmState.running then py_suspend
  else if state = VmState.paused then py_unpause ++ py_suspend
  else if state = VmState.stopped then py_start ++ py_suspend
  else []

/-- The four terminal states of the specification. -/
inductive Terminal
  | stopped
  | running
  | paused
  | suspended
  deriving DecidableEq, Repr

/-- Inclusion of terminal states into the full state enumeration. -/
def Terminal.toVmState : Terminal → VmState
  | Terminal.stopped => VmState.stopped
  | Terminal.running => VmState.running
  | Terminal.paused => VmState.paused
  | Terminal.suspended => VmState.suspended

/-- Requested target states: each one selects one of the four
`_set_*_state` reconciliation operations; stop carries the kill mode. -/
inductive Target
  | running
  | stoppedT (kill : Bool)
  | pausedT
  | suspendedT
  deriving DecidableEq, Repr

/-- Dispatch of a target to the branch chain of the corresponding
`_set_*_state` operation. -/
def actions_for : Target → VmState → List SdkCall
  | Target.running, s => set_started_actions s
  | Target.stoppedT k, s => set_stopped_actions s k
  | Target.pausedT, s => set_paused_actions s
  | Target.suspendedT, s => set_suspended_actions s

/-- The action sequence the code issues for an observed terminal state and a
requested target. -/
def code_cell (o : Terminal) (t : Target) : List SdkCall :=
  actions_for t o.toVmState

/-- Modelled from the spec: the section 4.1 reconciliation table.  In the
Paused row the spec defines resume as start (the cell reads
"resume(=start)"), matching the driver's `_unpause`, which issues a start
call; the Suspended row uses the genuine resume call. -/
def spec_table : Terminal → Target → List SdkCall
  | Terminal.stopped, Target.running => [SdkCall.start]
  | Terminal.stopped, Target.stoppedT _ => []
  | Terminal.stopped, Target.pausedT => [SdkCall.start, SdkCall.pause]
  | Terminal.stopped, Target.suspendedT => [SdkCall.start, SdkCall.suspend]
  | Terminal.running, Target.running => []
  | Terminal.running, Target.stoppedT k => [SdkCall.stopEx (stop_mode k)]
  | Terminal.running, Target.pausedT => [SdkCall.pause]
  | Terminal.running, Target.suspendedT => [SdkCall.suspend]
  | Terminal.paused, Target.running => [SdkCall.start]
  | Terminal.paused, Target.stoppedT k => [SdkCall.start, SdkCall.stopEx (stop_mode k)]
  | Terminal.paused, Target.pausedT => []
  | Terminal.paused, Target.suspendedT => [SdkCall.start, SdkCall.suspend]
  | Terminal.suspended, Target.running => [SdkCall.resume]
  | Terminal.suspended, Target.stoppedT k => [SdkCall.resume, SdkCall.stopEx (stop_mode k)]
  | Terminal.suspended, Target.pausedT => [SdkCall.resume, SdkCall.pause]
  | Terminal.suspended, Target.suspendedT => []

/-- Observable events of a reconciliation run: a state poll (`_get_state`),
a sleep of a number of seconds (`time.sleep`), or a completed hypervisor
transition call. -/
inductive Ev
  | poll (s : VmState)
  | sleepSec (n : Nat)
  | call (c : SdkCall)
  deriving DecidableEq, Repr

/-- The `_wait_intermediate_state` loop (driver.py lines 248-271) run against
a finite trace of observed states: polls each state in turn; while the state
is intermediate it sleeps one second and re-polls.  Returns the emitted
events, the state that broke the loop (`none` when the trace is exhausted
while still transitional — in the source the loop simply keeps polling, as
it has no timeout), and the remaining unread trace. -/
def wait_intermediate_state : List VmState → List Ev × Option VmState × List VmState
  | [] => ([], none, [])
  | s :: rest =>
    if is_intermediate s then
      match wait_intermediate_state rest with
      | (evs, r, rem) => (Ev.poll s :: Ev.sleepSec 1 :: evs, r, rem)
    else
      ([Ev.poll s], some s, rest)

/-- One reconciliation call `_set_*_state` (selected by the target) run
against a trace of observed states: first `_wait_intermediate_state`, then
one more `_get_state` poll (the source re-reads the state after the loop),
then the branch chain of the operation.  If the trace is exhausted first,
only the emitted polls and sleeps are returned (the source would still be
polling). -/
def set_state_run (t : Target) (trace : List VmState) : List Ev :=
  match wait_intermediate_state trace with
  | (evs, _, []) => evs
  | (evs, _, s :: _) => evs ++ Ev.poll s :: (actions_for t s).map Ev.call

/-- Checks that an event list issues no transition call before a poll of a
non-intermediate (terminal) state has been observed. -/
def no_call_before_terminal : List Ev → Bool
  | [] => true
  | Ev.call _ :: _ => false
  | Ev.poll s :: rest =>
    if is_intermediate s then no_call_before_terminal rest else true
  | Ev.sleepSec _ :: rest => no_call_before_terminal rest

/-- Nova power-state code `power_state.NOSTATE`. -/
def power_state_NOSTATE : Nat := 0

/-- Nova power-state code `power_state.RUNNING`. -/
def power_state_RUNNING : Nat := 1

/-- Nova power-state code `power_state.PAUSED`. -/
def power_state_PAUSED : Nat := 3

/-- Nova power-state code `power_state.SHUTDOWN`. -/
def power_state_SHUTDOWN : Nat := 4

/-- Nova power-state code `power_state.CRASHED`. -/
def power_state_CRASHED : Nat := 6

/-- Nova power-state code `power_state.SUSPENDED`. -/
def power_state_SUSPENDED : Nat := 7

/-- The `_sync_ve_state` dispatcher (driver.py lines 327-340) run against a
trace of observed states: `NOSTATE` returns immediately; the five listed
power states dispatch to a `_set_*_state` call; every other requested value
falls through the branch chain with no action and no error. -/
def sync_ve_state (req_state : Nat) (trace : List VmState) : List Ev :=
  if req_state = power_state_NOSTATE then []
  else if req_state = power_state_RUNNING then set_state_run Target.running trace
  else if req_state = power_state_PAUSED then set_state_run Target.pausedT trace
  else if req_state = power_state_SHUTDOWN then set_state_run (Target.stoppedT false) trace
  else if req_state = power_state_CRASHED then set_state_run (Target.stoppedT true) trace
  else if req_state = power_state_SUSPENDED then set_state_run Target.suspendedT trace
  else []

/-- VE kind: full virtual machine (`PVT_VM`) or container (`PVT_CT`). -/
inductive VmType
  | vm
  | ct
  deriving DecidableEq, Repr

/-- SDK error codes surfaced by `get_vm_config`: the distinguished
`PRL_ERR_VM_UUID_NOT_FOUND` code, or any other code. -/
inductive SdkErrCode
  | vmUuidNotFound
  | otherCode (n : Nat)
  deriving DecidableEq, Repr

/-- Driver-level errors: nova's `InstanceNotFound`, a re-raised SDK error,
or `NotImplementedError`. -/
inductive DrvErr
  | instanceNotFound (name : String)
  | sdkError (code : SdkErrCode)
  | notImplementedError
  deriving DecidableEq, Repr

/-- The `_get_ve_by_name` lookup (driver.py lines 213-221).  The parameter
is the hypervisor's answer: `none` means the VE was found, `some code` means
`get_vm_config` raised a `PrlSDKError` with that code.  The code path maps
`PRL_ERR_VM_UUID_NOT_FOUND` to `InstanceNotFound` and re-raises everything
else. -/
def get_ve_by_name (lookup : Option SdkErrCode) (name : String) : Except DrvErr Unit :=
  match lookup with
  | none => Except.ok ()
  | some code =>
    if code = SdkErrCode.vmUuidNotFound then Except.error (DrvErr.instanceNotFound name)
    else Except.error (DrvErr.sdkError code)

/-- Driver operations observable after a successful lookup. -/
inductive DrvOp
  | unplugVif
  | setStoppedState
  | disconnectVolume
  | deleteVe
  | getVeState
  deriving DecidableEq, Repr

/-- The `destroy` entry point (driver.py lines 530-552): the lookup is
wrapped in a handler that catches `InstanceNotFound` and returns; on success
the VE is unplugged, force-stopped, volumes disconnected, and deleted. -/
def destroy_run (lookup : Option SdkErrCode) (name : String) :
    List DrvOp × Except DrvErr Unit :=
  match get_ve_by_name lookup name with
  | Except.error (DrvErr.instanceNotFound _) => ([], Except.ok ())
  | Except.error e => ([], Except.error e)
  | Except.ok _ =>
    ([DrvOp.unplugVif, DrvOp.setStoppedState, DrvOp.disconnectVolume, DrvOp.deleteVe],
     Except.ok ())

/-- The `unplug_vifs` entry point (driver.py lines 358-361): the lookup is
not wrapped in any handler, so a lookup failure propagates. -/
def unplug_vifs_run (lookup : Option SdkErrCode) (name : String) :
    List DrvOp × Except DrvErr Unit :=
  match get_ve_by_name lookup name with
  | Except.error e => ([], Except.error e)
  | Except.ok _ => ([DrvOp.unplugVif], Except.ok ())

/-- The `get_info` entry point (driver.py lines 554-565): the lookup is not
wrapped in any handler, so a lookup failure propagates. -/
def get_info_run (lookup : Option SdkErrCode) (name : String) :
    List DrvOp × Except DrvErr Unit :=
  match get_ve_by_name lookup name with
  | Except.error e => ([], Except.error e)
  | Except.ok _ => ([DrvOp.getVeState], Except.ok ())

/-- The `pause` entry point (driver.py lines 604-609) for a VE of the given
kind, run against a state trace: a non-VM kind raises
`NotImplementedError` before any state poll or transition call. -/
def pause_run (vt : VmType) (trace : List VmState) : List Ev × Except DrvErr Unit :=
  if vt ≠ VmType.vm then ([], Except.error DrvErr.notImplementedError)
  else (set_state_run Target.pausedT trace, Except.ok ())

/-- The `unpause` entry point (driver.py lines 611-616) for a VE of the
given kind: a non-VM kind raises `NotImplementedError`; a VM is driven to
the started state. -/
def unpause_run (vt : VmType) (trace : List VmState) : List Ev × Except DrvErr Unit :=
  if vt ≠ VmType.vm then ([], Except.error DrvErr.notImplementedError)
  else (set_state_run Target.running trace, Except.ok ())

/-- A single-quote character, as used by Python `repr` of a string. -/
def pySQuote : String := String.singleton (Char.ofNat 39)

/-- Python `repr` of a string (as produced for the plain command words
appearing in this code base: the word is wrapped in single quotes). -/
def pyRepr (s : String) : String := pySQuote ++ s ++ pySQuote

/-- Python `repr` of a list of strings, as produced by the `%r` format of a
command argv list. -/
def pyReprList (l : List String) : String :=
  "[" ++ String.intercalate ", " (l.map pyRepr) ++ "]"

/-- Decides whether `needle` occurs as a contiguous run inside `hay`. -/
def charsContain (needle : List Char) : List Char → Bool
  | [] => needle.isEmpty
  | c :: cs => needle.isPrefixOf (c :: cs) || charsContain needle cs

/-- Decides whether the string `needle` is a substring of `hay`. -/
def strContains (hay needle : String) : Bool :=
  charsContain needle.data hay.data

/-- Message raised by `utils.system_exc` on a nonzero exit code:
the Python format string is a quoted `%r` of the argv followed by
`returned` and the code. -/
def system_exc_msg (cmd : List String) (ret : Int) : String :=
  pySQuote ++ pyReprList cmd ++ pySQuote ++ " returned " ++ toString ret

/-- One fragment of the aggregated pipe failure message: the `%r` of a
stage's argv followed by `returned` and its exit code (the format used by
`compress_ploop`, `uncompress_ploop` and `CPloopUploader.wait`). -/
def stage_frag (cmd : List String) (ret : Int) : String :=
  pyReprList cmd ++ " returned " ++ toString ret

/-- The aggregated failure message built by the two-stage wait code
(utils.py lines 50-54, 80-84, 183-187): start from the empty string, append
the stage-1 fragment when `ret1` is nonzero, then append a comma-prefixed
stage-2 fragment when `ret2` is nonzero. -/
def pipe_fail_msg (cmd1 : List String) (ret1 : Int) (cmd2 : List String) (ret2 : Int) : String :=
  (if ret1 = 0 then "" else stage_frag cmd1 ret1) ++
  (if ret2 = 0 then "" else ", " ++ stage_frag cmd2 ret2)

/-- Errors raised by the pipe helpers: a `subprocess.Popen` start failure of
a given stage, Python's `UnboundLocalError` from referencing a never-assigned
local, or the aggregated `Exception(msg)` raised after the waits. -/
inductive PipeErr
  | startFailure (stage : Nat)
  | unboundLocal
  | procFailure (msg : String)
  deriving DecidableEq, Repr

/-- The `if msg: raise Exception(msg)` aggregation at the end of the
two-stage wait code. -/
def pipe_wait_result (cmd1 : List String) (ret1 : Int) (cmd2 : List String) (ret2 : Int) :
    Except PipeErr Unit :=
  if pipe_fail_msg cmd1 ret1 cmd2 ret2 = "" then Except.ok ()
  else Except.error (PipeErr.procFailure (pipe_fail_msg cmd1 ret1 cmd2 ret2))

/-- Observable operations of the pipe helpers. -/
inductive PipeOp
  | openDst
  | closeDst
  | openSrc
  | closeSrc
  | popen (stage : Nat)
  | killStage (stage : Nat)
  | waitStage (stage : Nat)
  | closeStdout (stage : Nat)
  deriving DecidableEq, Repr

/-- The argv of the tar archive stage, `['tar', 'cO', '-C', src, '.']`. -/
def tar_c_cmd (src : String) : List String := ["tar", "cO", "-C", src, "."]

/-- The argv of the compress stage, `['prlcompress', '-p']`. -/
def prlcompress_p_cmd : List String := ["prlcompress", "-p"]

/-- The `compress_ploop` function (utils.py lines 26-56) with the start
outcome of each `Popen` and the exit statuses injected.  When the stage-1
`Popen` raises, the bare `except:` merely closes `dst_file` without
re-raising; execution falls through to the second `try`, where evaluating
`p1.stdout` raises `UnboundLocalError` before the stage-2 `Popen` is
invoked; the handler then evaluates `p1.kill()`, raising `UnboundLocalError`
again, which propagates after the `finally` closes `dst_file` a second
time.  When the stage-2 `Popen` raises, the handler kills and waits on the
started stage 1 and re-raises, with the `finally` closing `dst_file`. -/
def compress_ploop (src dst : String) (start1_ok start2_ok : Bool) (ret1 ret2 : Int) :
    List PipeOp × Except PipeErr Unit :=
  if start1_ok = false then
    ([PipeOp.openDst, PipeOp.popen 1, PipeOp.closeDst, PipeOp.closeDst],
     Except.error PipeErr.unboundLocal)
  else if start2_ok = false then
    ([PipeOp.openDst, PipeOp.popen 1, PipeOp.popen 2, PipeOp.killStage 1,
      PipeOp.waitStage 1, PipeOp.closeDst],
     Except.error (PipeErr.startFailure 2))
  else
    ([PipeOp.openDst, PipeOp.popen 1, PipeOp.popen 2, PipeOp.closeDst,
      PipeOp.closeStdout 1, PipeOp.waitStage 1, PipeOp.waitStage 2],
     pipe_wait_result (tar_c_cmd src) ret1 prlcompress_p_cmd ret2)

/-- The `uncompress_ploop` function (utils.py lines 58-86): the stage-1
`Popen` sits in a `try`/`finally` that closes `src_file`, so its start
failure propagates (and stage 2 is never attempted); a stage-2 start
failure kills and waits on stage 1 and re-raises. -/
def uncompress_ploop (src dst : String) (root_helper : List String)
    (start1_ok start2_ok : Bool) (ret1 ret2 : Int) :
    List PipeOp × Except PipeErr Unit :=
  if start1_ok = false then
    ([PipeOp.openSrc, PipeOp.popen 1, PipeOp.closeSrc],
     Except.error (PipeErr.startFailure 1))
  else if start2_ok = false then
    ([PipeOp.openSrc, PipeOp.popen 1, PipeOp.closeSrc, PipeOp.popen 2,
      PipeOp.killStage 1, PipeOp.waitStage 1],
     Except.error (PipeErr.startFailure 2))
  else
    ([PipeOp.openSrc, PipeOp.popen 1, PipeOp.closeSrc, PipeOp.popen 2,
      PipeOp.closeStdout 1, PipeOp.waitStage 1, PipeOp.waitStage 2],
     pipe_wait_result ["prlcompress", "-u"] ret1
       (root_helper ++ ["tar", "x", "-C", dst]) ret2)

/-- The `CPloopUploader.start` method (utils.py lines 162-177): the stage-1
`Popen` is unguarded, so its start failure propagates directly and stage 2
is never attempted; a stage-2 start failure kills and waits on stage 1 and
re-raises. -/
def cploop_uploader_start (hdd_path : String) (start1_ok start2_ok : Bool) :
    List PipeOp × Except PipeErr Unit :=
  if start1_ok = false then
    ([PipeOp.popen 1], Except.error (PipeErr.startFailure 1))
  else if start2_ok = false then
    ([PipeOp.popen 1, PipeOp.popen 2, PipeOp.killStage 1, PipeOp.waitStage 1],
     Except.error (PipeErr.startFailure 2))
  else
    ([PipeOp.popen 1, PipeOp.popen 2, PipeOp.closeStdout 1], Except.ok ())

/-- The `CPloopUploader.wait` method (utils.py lines 179-189): waits for
both stages and raises the aggregated message iff it is nonempty. -/
def cploop_uploader_wait (hdd_path : String) (ret1 ret2 : Int) : Except PipeErr Unit :=
  pipe_wait_result (tar_c_cmd hdd_path) ret1 prlcompress_p_cmd ret2

/-- Python 2 `try`/`finally` over trace-producing computations: the finally
trace always runs after the body trace; an exception raised by the finally
block replaces the in-flight body exception, otherwise the body outcome is
the outcome of the whole statement. -/
def pyTryFinally {Op E : Type} (body fin : List Op × Except E Unit) :
    List Op × Except E Unit :=
  (body.1 ++ fin.1,
   match fin.2 with
   | Except.error e => Except.error e
   | Except.ok _ => body.2)

/-- Keeps the longest whitespace-free prefix of a character list: the run
matched by the regex token `\S+` at a given position. -/
def take_nonspace : List Char → List Char
  | [] => []
  | c :: cs => if c.isWhitespace then [] else c :: take_nonspace cs

/-- The literal characters of the `dev=` anchor of the mount-output regex. -/
def dev_anchor : List Char := ['d', 'e', 'v', '=']

/-- Scan of `re.search` with pattern `dev=` followed by `\S+`: at each
position, if the anchor matches and is followed by at least one
non-whitespace character, return that run; otherwise continue scanning. -/
def find_dev_match : List Char → Option (List Char)
  | [] => none
  | c :: cs =>
    if dev_anchor.isPrefixOf (c :: cs) then
      match take_nonspace ((c :: cs).drop 4) with
      | [] => find_dev_match cs
      | tok => some tok
    else find_dev_match cs

/-- Extraction of the ploop block-device path from the `ploop mount` output
(the `re.search` in `convert_image`). -/
def parse_dev (out : String) : Option String :=
  (find_dev_match out.data).map (fun cs => String.mk cs)

/-- Observable operations of `convert_image`. -/
inductive ConvOp
  | ploopMount (dd : String)
  | qemuConvert (dev dst : String)
  | ploopUmount (dd : String)
  deriving DecidableEq, Repr

/-- The argv of the qemu-img conversion step of `convert_image`. -/
def qemu_convert_cmd (root_helper : List String) (disk_format dev dst : String) :
    List String :=
  root_helper ++ ["qemu-img", "convert", "-f", "raw", "-O", disk_format, dev, dst]

/-- The argv of the `ploop umount` cleanup step of `convert_image`. -/
def ploop_umount_cmd (root_helper : List String) (dd : String) : List String :=
  root_helper ++ ["ploop", "umount", dd]

/-- The `convert_image` function (utils.py lines 137-156) with the `ploop
mount` output and the exit statuses of the convert and umount processes
injected.  The mount itself uses `getstatusoutput`, which does not raise;
the body parses the device from the output (raising on a failed parse),
then runs the conversion via `system_exc`; the `finally` always runs the
umount via `system_exc`, and — Python 2 semantics — an umount failure
replaces any in-flight body exception. -/
def convert_image_run (root_helper : List String) (src dst disk_format mount_out : String)
    (convert_ret umount_ret : Int) : List ConvOp × Except String Unit :=
  let dd := src ++ "/DiskDescriptor.xml"
  let mount_cmd := root_helper ++ ["ploop", "mount", dd]
  let body : List ConvOp × Except String Unit :=
    match parse_dev mount_out with
    | none =>
      ([], Except.error ("Invalid output from " ++ pyReprList mount_cmd ++ ": " ++ mount_out))
    | some dev =>
      ([ConvOp.qemuConvert dev dst],
       if convert_ret = 0 then Except.ok ()
       else Except.error (system_exc_msg (qemu_convert_cmd root_helper disk_format dev dst) convert_ret))
  let fin : List ConvOp × Except String Unit :=
    ([ConvOp.ploopUmount dd],
     if umount_ret = 0 then Except.ok ()
     else Except.error (system_exc_msg (ploop_umount_cmd root_helper dd) umount_ret))
  let r := pyTryFinally body fin
  (ConvOp.ploopMount dd :: r.1, r.2)

/-- Observable operations of the snapshot orchestration. -/
inductive SnapOp
  | cloneVe
  | chownDir
  | showImage
  | getBootDisk
  | ploopSnapshotList
  | readDescriptor
  | uploadImage
  | uploaderStart
  | uploaderWait
  | convertImage
  | unlinkTmp
  | deleteClone
  deriving DecidableEq, Repr

/-- The `_snapshot_ve` body (driver.py lines 667-726) with the outcome of
the upload step and of `uploader.wait()` injected: after the image-service
`show` and the boot-disk lookup the code branches on the configured disk
format — the `ploop` branch reads the descriptor and uploads; the `cploop`
branch starts the uploader and wraps the upload in `try`/`finally
uploader.wait()`; any other format converts to a temporary file, uploads,
and unlinks the temporary on success. -/
def snapshot_ve_run (disk_format : String) (upload_res wait_res : Except String Unit) :
    List SnapOp × Except String Unit :=
  let pre := [SnapOp.showImage, SnapOp.getBootDisk]
  if disk_format = "ploop" then
    (pre ++ [SnapOp.ploopSnapshotList, SnapOp.readDescriptor, SnapOp.uploadImage],
     upload_res)
  else if disk_format = "cploop" then
    let r := pyTryFinally ([SnapOp.uploadImage], upload_res)
                          ([SnapOp.uploaderWait], wait_res)
    (pre ++ SnapOp.uploaderStart :: r.1, r.2)
  else
    (pre ++ [SnapOp.convertImage, SnapOp.uploadImage] ++
       (match upload_res with
        | Except.ok _ => [SnapOp.unlinkTmp]
        | Except.error _ => []),
     upload_res)

/-- The `snapshot` entry point (driver.py lines 728-750): clone the source
VE to a template, chown the clone's directory, then run `_snapshot_ve`
inside `try`/`finally tmpl_ve.delete().wait()`; the completed delete is the
last operation on every exit path, after which the body outcome
propagates. -/
def snapshot_run (disk_format : String) (upload_res wait_res : Except String Unit) :
    List SnapOp × Except String Unit :=
  let body := snapshot_ve_run disk_format upload_res wait_res
  let r := pyTryFinally body ([SnapOp.deleteClone], Except.ok ())
  ([SnapOp.cloneVe, SnapOp.chownDir] ++ r.1, r.2)

/-- Device types as compared against `PDE_HARD_DISK`. -/
inductive DevType
  | hardDisk
  | otherDev (n : Nat)
  deriving DecidableEq, Repr

/-- A boot-device entry of a VM configuration: its device type and the
index used to resolve the actual device. -/
structure BootDev where
  devType : DevType
  index : Nat
  deriving DecidableEq, Repr

/-- The slice of a VE configuration read by the boot-disk lookup: the VE
kind, the ordered boot-device list (`get_boot_dev`), and the hard-disk
devices indexed as by `get_dev_by_type(PDE_HARD_DISK, i)` (each disk is
represented by its image path). -/
structure VeConf where
  vmType : VmType
  bootDevs : List BootDev
  hardDisks : List String
  deriving DecidableEq, Repr

/-- Message of the exception raised by `_get_vm_boot_disk` when no
hard-disk boot device exists. -/
def cant_find_msg : String := "Can" ++ pySQuote ++ "t find boot hard disk."

/-- The `_get_vm_boot_disk` lookup (utils.py lines 97-110): walk the boot
devices in order, skip entries whose type is not hard disk, and resolve the
first hard-disk entry through `get_dev_by_type(PDE_HARD_DISK, index)`;
raise when the loop finds none (or when the SDK has no device at the
resolved index). -/
def get_vm_boot_disk (ve : VeConf) : Except String String :=
  match ve.bootDevs.find? (fun b => b.devType == DevType.hardDisk) with
  | some b =>
    match ve.hardDisks[b.index]? with
    | some hdd => Except.ok hdd
    | none => Except.error "SDK error: no hard disk device at index"
  | none => Except.error cant_find_msg

/-- The `_get_ct_boot_disk` lookup (utils.py lines 88-95): raise when the
hard-disk count is below one, otherwise return the device at index 0. -/
def get_ct_boot_disk (ve : VeConf) : Except String String :=
  match ve.hardDisks with
  | [] => Except.error "There are no hard disks in VE."
  | hdd :: _ => Except.ok hdd

/-- The `get_boot_disk` dispatcher (utils.py lines 112-116): VM kinds use
the boot-device list rule, all other kinds the container rule. -/
def get_boot_disk (ve : VeConf) : Except String String :=
  if ve.vmType = VmType.vm then get_vm_boot_disk ve else get_ct_boot_disk ve

theorem set_state_run_nil (t : Target) : set_state_run t [] = [] := rfl

theorem set_state_run_cons_inter (t : Target) (s : VmState) (rest : List VmState)
    (h : is_intermediate s = true) :
    set_state_run t (s :: rest) = Ev.poll s :: Ev.sleepSec 1 :: set_state_run t rest := by
  rcases hw : wait_intermediate_state rest with ⟨evs, r, rem⟩
  cases rem <;> simp [set_state_run, wait_intermediate_state, h, hw]

theorem set_state_run_cons_term (t : Target) (s : VmState) (rest : List VmState)
    (h : is_intermediate s = false) :
    set_state_run t (s :: rest) =
      Ev.poll s :: (match rest with
        | [] => []
        | s2 :: _ => Ev.poll s2 :: (actions_for t s2).map Ev.call) := by
  cases rest <;> simp [set_state_run, wait_intermediate_state, h]

theorem no_call_run (t : Target) (trace : List VmState) :
    no_call_before_terminal (set_state_run t trace) = true := by
  induction trace with
  | nil => rfl
  | cons s rest ih =>
    by_cases h : is_intermediate s = true
    · rw [set_state_run_cons_inter t s rest h]
      simpa [no_call_before_terminal, h] using ih
    · have h' : is_intermediate s = false := by simpa using h
      rw [set_state_run_cons_term t s rest h']
      simp [no_call_before_terminal, h']

theorem sleeps_one (t : Target) (trace : List VmState) (n : Nat)
    (hn : Ev.sleepSec n ∈ set_state_run t trace) : n = 1 := by
  induction trace with
  | nil => simp [set_state_run_nil] at hn
  | cons s rest ih =>
    by_cases h : is_intermediate s = true
    · rw [set_state_run_cons_inter t s rest h] at hn
      simp at hn
      rcases hn with h1 | h2
      · exact h1
      · exact ih h2
    · have h' : is_intermediate s = false := by simpa using h
      rw [set_state_run_cons_term t s rest h'] at hn
      cases rest with
      | nil => simp at hn
      | cons s2 r2 => simp [List.mem_map] at hn

theorem run_all_inter (t : Target) (trace : List VmState)
    (h : ∀ s ∈ trace, is_intermediate s = true) :
    set_state_run t trace = trace.flatMap (fun s => [Ev.poll s, Ev.sleepSec 1]) := by
  induction trace with
  | nil => rfl
  | cons s rest ih =>
    rw [set_state_run_cons_inter t s rest (h s (by simp))]
    simp [ih (fun x hx => h x (by simp [hx]))]

/-- C1: for every observed terminal state and every requested target state,
the corresponding reconciliation operation (`_set_started_state`,
`_set_stopped_state`, `_set_paused_state`, `_set_suspended_state`) issues
exactly the action sequence of the section-4.1 table cell, in the table's
order (each `SdkCall` in the model stands for a hypervisor call awaited to
completion); in particular an observed state already equal to the target
issues no action. -/
theorem C1_reconcile_table (o : Terminal) (t : Target) :
    code_cell o t = spec_table o t := by
  cases o <;> cases t <;> rfl

/-- C2: a reconciliation call issues no transition call before a poll has
observed a non-intermediate (terminal) state; every sleep between polls is
exactly one second; and while every observed state is transitional the run
is exactly poll-sleep pairs, one per observation, with no give-up and no
action (no timeout, no backoff). -/
theorem C2_no_action_while_transitional (t : Target) (trace : List VmState) :
    no_call_before_terminal (set_state_run t trace) = true
    ∧ (∀ n, Ev.sleepSec n ∈ set_state_run t trace → n = 1)
    ∧ ((∀ s ∈ trace, is_intermediate s = true) →
        set_state_run t trace = trace.flatMap (fun s => [Ev.poll s, Ev.sleepSec 1])) :=
  ⟨no_call_run t trace, fun n hn => sleeps_one t trace n hn,
   fun h => run_all_inter t trace h⟩

/-- C2 witness: the theorem evaluated on a concrete all-transitional
trace. -/
theorem C2_no_action_while_transitional_witness :
    no_call_before_terminal
      (set_state_run Target.running [VmState.starting, VmState.migrating]) = true
    ∧ set_state_run Target.running [VmState.starting, VmState.migrating]
        = [Ev.poll VmState.starting, Ev.sleepSec 1,
           Ev.poll VmState.migrating, Ev.sleepSec 1] := by
  have h := C2_no_action_while_transitional Target.running
    [VmState.starting, VmState.migrating]
  refine ⟨h.1, ?_⟩
  have h2 := h.2.2 (by decide)
  simpa using h2

/-- C8: for a container-kind VE the public `pause` and `unpause` operations
raise `NotImplementedError` (the spec's `CapabilityUnsupported`) regardless
of the observed state trace, issuing no poll and no transition call — never
a silent no-op. -/
theorem C8_pause_container_unsupported (trace : List VmState) :
    pause_run VmType.ct trace = ([], Except.error DrvErr.notImplementedError)
    ∧ unpause_run VmType.ct trace = ([], Except.error DrvErr.notImplementedError) :=
  ⟨rfl, rfl⟩

/-- C10: the `_sync_ve_state` dispatcher handles `CRASHED` by driving the VE
to the stopped state with the forced (kill) stop mode, returns immediately
with zero hypervisor calls on `NOSTATE`, and silently ignores every
requested power-state value outside the six handled ones (no action, no
error); on a concrete running VE a `CRASHED` request issues exactly the
forced stop call. -/
theorem C10_sync_state_dispatch (req : Nat) (trace : List VmState) :
    sync_ve_state power_state_CRASHED trace = set_state_run (Target.stoppedT true) trace
    ∧ sync_ve_state power_state_NOSTATE trace = []
    ∧ (req ∉ [power_state_NOSTATE, power_state_RUNNING, power_state_PAUSED,
              power_state_SHUTDOWN, power_state_CRASHED, power_state_SUSPENDED] →
        sync_ve_state req trace = [])
    ∧ sync_ve_state power_state_CRASHED [VmState.running, VmState.running]
        = [Ev.poll VmState.running, Ev.poll VmState.running,
           Ev.call (SdkCall.stopEx StopMode.kill)] := by
  refine ⟨rfl, rfl, ?_, by decide⟩
  intro h
  simp [power_state_NOSTATE, power_state_RUNNING, power_state_PAUSED,
        power_state_SHUTDOWN, power_state_CRASHED, power_state_SUSPENDED] at h
  obtain ⟨h0, h1, h3, h4, h6, h7⟩ := h
  simp [sync_ve_state, power_state_NOSTATE, power_state_RUNNING, power_state_PAUSED,
        power_state_SHUTDOWN, power_state_CRASHED, power_state_SUSPENDED,
        h0, h1, h3, h4, h6, h7]

/-- C10 witness: the unlisted power-state value 2 is silently ignored. -/
theorem C10_sync_state_dispatch_witness :
    sync_ve_state 2 [VmState.running] = [] := by
  exact (C10_sync_state_dispatch 2 [VmState.running]).2.2.1 (by decide)

/-- C7 counterexample: `unplug_vifs` on an absent VE does not return
success — it propagates `InstanceNotFound` — refuting the claim that every
teardown-style caller (destroy, unplug) catches `NotFound` and returns
success. -/
theorem C7_counterexample :
    unplug_vifs_run (some SdkErrCode.vmUuidNotFound) "instance-1"
      = ([], Except.error (DrvErr.instanceNotFound "instance-1"))
    ∧ (unplug_vifs_run (some SdkErrCode.vmUuidNotFound) "instance-1").2
        ≠ Except.ok () := by
  refine ⟨rfl, ?_⟩
  simp [unplug_vifs_run, get_ve_by_name]

/-- C7 (amended): VE absence is surfaced by `_get_ve_by_name` as the
distinct `InstanceNotFound` error kind while other SDK errors propagate
unmodified; `destroy` catches `InstanceNotFound` and returns success, but
`unplug_vifs` propagates it as a failure, exactly like the read caller
`get_info`; non-NotFound lookup errors also propagate out of `destroy`. -/
theorem C7_notfound_propagation (name : String) (n : Nat) :
    get_ve_by_name (some SdkErrCode.vmUuidNotFound) name
      = Except.error (DrvErr.instanceNotFound name)
    ∧ get_ve_by_name (some (SdkErrCode.otherCode n)) name
      = Except.error (DrvErr.sdkError (SdkErrCode.otherCode n))
    ∧ get_ve_by_name none name = Except.ok ()
    ∧ destroy_run (some SdkErrCode.vmUuidNotFound) name = ([], Except.ok ())
    ∧ get_info_run (some SdkErrCode.vmUuidNotFound) name
      = ([], Except.error (DrvErr.instanceNotFound name))
    ∧ unplug_vifs_run (some SdkErrCode.vmUuidNotFound) name
      = ([], Except.error (DrvErr.instanceNotFound name))
    ∧ destroy_run (some (SdkErrCode.otherCode n)) name
      = ([], Except.error (DrvErr.sdkError (SdkErrCode.otherCode n))) := by
  refine ⟨rfl, ?_, rfl, rfl, rfl, rfl, ?_⟩ <;>
    simp [get_ve_by_name, destroy_run]

theorem deleteClone_not_in_body (fmt : String) (up wr : Except String Unit) :
    SnapOp.deleteClone ∉ (snapshot_ve_run fmt up wr).1 := by
  unfold snapshot_ve_run pyTryFinally
  split_ifs <;> cases up <;> cases wr <;> simp

/-- C3: for every snapshot job, whatever the configured disk format and
whatever the outcome of the stream/upload steps (success or raise), the
orchestrator issues the clone-delete call exactly once, as the final
completed operation before returning or re-raising, and the body outcome
then propagates unchanged. -/
theorem C3_clone_delete_exactly_once (fmt : String) (up wr : Except String Unit) :
    (snapshot_run fmt up wr).1.count SnapOp.deleteClone = 1
    ∧ (snapshot_run fmt up wr).1.getLast? = some SnapOp.deleteClone
    ∧ (snapshot_run fmt up wr).2 = (snapshot_ve_run fmt up wr).2 := by
  have hmem := deleteClone_not_in_body fmt up wr
  have hform : (snapshot_run fmt up wr).1
      = ([SnapOp.cloneVe, SnapOp.chownDir] ++ (snapshot_ve_run fmt up wr).1)
        ++ [SnapOp.deleteClone] := by
    simp [snapshot_run, pyTryFinally, List.append_assoc]
  refine ⟨?_, ?_, rfl⟩
  · rw [hform, List.count_append, List.count_append, List.count_eq_zero.2 hmem]
    decide
  · rw [hform, List.getLast?_concat]

/-- C9: boot-disk lookup.  For a full-VM VE with no hard-disk-type boot
entry the lookup raises; when the boot-device list has a first hard-disk
entry, the lookup resolves that entry's index among the hard-disk devices
and returns that device.  For a container VE the lookup raises when no hard
disk is present and returns the first hard-disk device otherwise. -/
theorem C9_boot_disk_lookup (ve : VeConf) :
    (ve.vmType = VmType.vm →
      ((∀ b ∈ ve.bootDevs, b.devType ≠ DevType.hardDisk) →
        get_boot_disk ve = Except.error cant_find_msg)
      ∧ (∀ pre b post, ve.bootDevs = pre ++ b :: post →
          (∀ x ∈ pre, x.devType ≠ DevType.hardDisk) →
          b.devType = DevType.hardDisk →
          ∀ hdd, ve.hardDisks[b.index]? = some hdd →
            get_boot_disk ve = Except.ok hdd))
    ∧ (ve.vmType = VmType.ct →
      (ve.hardDisks = [] → get_boot_disk ve = Except.error "There are no hard disks in VE.")
      ∧ (∀ hdd rest, ve.hardDisks = hdd :: rest → get_boot_disk ve = Except.ok hdd)) := by
  constructor
  · intro hvm
    constructor
    · intro hnone
      have hf : ve.bootDevs.find? (fun b => b.devType == DevType.hardDisk) = none := by
        rw [List.find?_eq_none]
        intro b hb
        simpa using hnone b hb
      simp [get_boot_disk, hvm, get_vm_boot_disk, hf]
    · intro pre b post hsplit hpre hb hdd hres
      have hfind : ve.bootDevs.find? (fun x => x.devType == DevType.hardDisk) = some b := by
        rw [hsplit, List.find?_append]
        have h1 : pre.find? (fun x => x.devType == DevType.hardDisk) = none := by
          rw [List.find?_eq_none]
          intro x hx
          simpa using hpre x hx
        rw [h1, List.find?_cons_of_pos _ (by simpa using hb)]
        rfl
      simp [get_boot_disk, hvm, get_vm_boot_disk, hfind, hres]
  · intro hct
    have hvm' : ¬ ve.vmType = VmType.vm := by rw [hct]; simp
    constructor
    · intro h
      simp [get_boot_disk, hvm', get_ct_boot_disk, h]
    · intro hdd rest h
      simp [get_boot_disk, hvm', get_ct_boot_disk, h]

/-- C9 witness: the theorem evaluated on a concrete VM configuration whose
first boot entry is a CD-ROM-like device and whose second is the hard disk
with index 1. -/
theorem C9_boot_disk_lookup_witness :
    get_boot_disk
      ⟨VmType.vm, [⟨DevType.otherDev 5, 0⟩, ⟨DevType.hardDisk, 1⟩], ["hdd0", "hdd1"]⟩
      = Except.ok "hdd1" := by
  exact ((C9_boot_disk_lookup _).1 rfl).2
    [⟨DevType.otherDev 5, 0⟩] ⟨DevType.hardDisk, 1⟩ [] rfl
    (by decide) rfl "hdd1" rfl

/-- C5: evaluation of the pipe helpers at the failing input and around it.
When the stage-1 `Popen` of `compress_ploop` raises, the bare `except:`
swallows the start failure; stage 2 is never started, and the error that
propagates is `UnboundLocalError` from referencing the unbound `p1` — not
the original start failure, contradicting the claim that the start failure
itself propagates.  The sibling paths behave as claimed:
`CPloopUploader.start` propagates a stage-1 start failure without starting
stage 2, and both helpers kill and wait on stage 1 before propagating a
stage-2 start failure. -/
theorem C5_pipe_start_failure_behavior :
    compress_ploop "/vz/src" "/vz/dst" false true 0 0
      = ([PipeOp.openDst, PipeOp.popen 1, PipeOp.closeDst, PipeOp.closeDst],
         Except.error PipeErr.unboundLocal)
    ∧ PipeOp.popen 2 ∉ (compress_ploop "/vz/src" "/vz/dst" false true 0 0).1
    ∧ (compress_ploop "/vz/src" "/vz/dst" false true 0 0).2
        ≠ Except.error (PipeErr.startFailure 1)
    ∧ cploop_uploader_start "/vz/hdd" false true
        = ([PipeOp.popen 1], Except.error (PipeErr.startFailure 1))
    ∧ cploop_uploader_start "/vz/hdd" true false
        = ([PipeOp.popen 1, PipeOp.popen 2, PipeOp.killStage 1, PipeOp.waitStage 1],
           Except.error (PipeErr.startFailure 2))
    ∧ compress_ploop "/vz/src" "/vz/dst" true false 0 0
        = ([PipeOp.openDst, PipeOp.popen 1, PipeOp.popen 2, PipeOp.killStage 1,
            PipeOp.waitStage 1, PipeOp.closeDst],
           Except.error (PipeErr.startFailure 2)) := by
  refine ⟨rfl, by decide, ?_, rfl, rfl, rfl⟩
  intro h
  simp [compress_ploop] at h

theorem charsContain_of_append (pre needle suf : List Char) :
    charsContain needle (pre ++ needle ++ suf) = true := by
  induction pre with
  | nil =>
    cases hn : needle with
    | nil => cases suf <;> simp [charsContain, List.isPrefixOf]
    | cons c cs =>
      have hp : (c :: cs).isPrefixOf ((c :: cs) ++ suf) = true := by
        rw [List.isPrefixOf_iff_prefix]
        exact ⟨suf, rfl⟩
      simp [charsContain, hp]
  | cons p ps ih =>
    have e : (p :: ps) ++ needle ++ suf = p :: (ps ++ needle ++ suf) := by simp
    rw [e]
    show (needle.isPrefixOf (p :: (ps ++ needle ++ suf))
      || charsContain needle (ps ++ needle ++ suf)) = true
    rw [ih, Bool.or_true]

theorem strContains_parts (a b c : String) : strContains (a ++ b ++ c) b = true := by
  have h := charsContain_of_append a.data b.data c.data
  simpa [strContains, String.data_append] using h

theorem stage_frag_length_pos (cmd : List String) (ret : Int) :
    0 < (stage_frag cmd ret).length := by
  unfold stage_frag pyReprList
  have h1 : "[".length = 1 := rfl
  rw [String.length_append, String.length_append, String.length_append,
      String.length_append, h1]
  omega

theorem append_ne_empty_of_left (s t : String) (h : 0 < s.length) : s ++ t ≠ "" := by
  intro he
  have hl := congrArg String.length he
  rw [String.length_append] at hl
  simp at hl
  omega

theorem pipe_fail_msg_ne_empty (cmd1 : List String) (ret1 : Int) (cmd2 : List String)
    (ret2 : Int) (h : ret1 ≠ 0 ∨ ret2 ≠ 0) :
    pipe_fail_msg cmd1 ret1 cmd2 ret2 ≠ "" := by
  unfold pipe_fail_msg
  by_cases h1 : ret1 = 0
  · have h2 : ¬ ret2 = 0 := by tauto
    rw [if_pos h1, if_neg h2]
    intro he
    have hl := congrArg String.length he
    rw [String.length_append, String.length_append] at hl
    have hc : ", ".length = 2 := rfl
    have h0 : "".length = 0 := rfl
    rw [hc, h0] at hl
    omega
  · rw [if_neg h1]
    apply append_ne_empty_of_left
    exact stage_frag_length_pos cmd1 ret1

/-- C6: the two-stage wait aggregation of `CPloopUploader.wait`: it raises
iff at least one stage exited nonzero; whenever a stage exited nonzero the
raised message contains that stage's argv `repr` and numeric exit code; a
stage that exited zero contributes nothing to the message (the message is
exactly the other stage's fragment); and on the spec's concrete example —
stage 1 exits 0, stage 2 exits 2 — the message does not mention stage 1's
argv at all. -/
theorem C6_wait_aggregation (hdd : String) (ret1 ret2 : Int) :
    (cploop_uploader_wait hdd ret1 ret2 = Except.ok () ↔ (ret1 = 0 ∧ ret2 = 0))
    ∧ (ret1 ≠ 0 → ∃ m, cploop_uploader_wait hdd ret1 ret2
          = Except.error (PipeErr.procFailure m)
        ∧ strContains m (stage_frag (tar_c_cmd hdd) ret1) = true)
    ∧ (ret2 ≠ 0 → ∃ m, cploop_uploader_wait hdd ret1 ret2
          = Except.error (PipeErr.procFailure m)
        ∧ strContains m (stage_frag prlcompress_p_cmd ret2) = true)
    ∧ (ret1 = 0 → pipe_fail_msg (tar_c_cmd hdd) ret1 prlcompress_p_cmd ret2
        = (if ret2 = 0 then "" else ", " ++ stage_frag prlcompress_p_cmd ret2))
    ∧ (ret2 = 0 → pipe_fail_msg (tar_c_cmd hdd) ret1 prlcompress_p_cmd ret2
        = (if ret1 = 0 then "" else stage_frag (tar_c_cmd hdd) ret1))
    ∧ strContains (pipe_fail_msg (tar_c_cmd "/vz/hdd") 0 prlcompress_p_cmd 2)
        (pyReprList (tar_c_cmd "/vz/hdd")) = false := by
  refine ⟨?_, ?_, ?_, ?_, ?_, by decide⟩
  · constructor
    · intro hok
      by_contra hne
      have hne' : ret1 ≠ 0 ∨ ret2 ≠ 0 := by tauto
      have := pipe_fail_msg_ne_empty (tar_c_cmd hdd) ret1 prlcompress_p_cmd ret2 hne'
      unfold cploop_uploader_wait pipe_wait_result at hok
      rw [if_neg this] at hok
      exact Except.noConfusion hok
    · rintro ⟨h1, h2⟩
      unfold cploop_uploader_wait pipe_wait_result pipe_fail_msg
      rw [if_pos h1, if_pos h2]
      rfl
  · intro h1
    have hne := pipe_fail_msg_ne_empty (tar_c_cmd hdd) ret1 prlcompress_p_cmd ret2 (Or.inl h1)
    refine ⟨pipe_fail_msg (tar_c_cmd hdd) ret1 prlcompress_p_cmd ret2, ?_, ?_⟩
    · unfold cploop_uploader_wait pipe_wait_result
      rw [if_neg hne]
    · unfold pipe_fail_msg
      rw [if_neg h1]
      by_cases h2 : ret2 = 0
      · rw [if_pos h2]
        have := strContains_parts "" (stage_frag (tar_c_cmd hdd) ret1) ""
        simpa using this
      · rw [if_neg h2]
        have := strContains_parts "" (stage_frag (tar_c_cmd hdd) ret1)
          (", " ++ stage_frag prlcompress_p_cmd ret2)
        simpa using this
  · intro h2
    have hne := pipe_fail_msg_ne_empty (tar_c_cmd hdd) ret1 prlcompress_p_cmd ret2 (Or.inr h2)
    refine ⟨pipe_fail_msg (tar_c_cmd hdd) ret1 prlcompress_p_cmd ret2, ?_, ?_⟩
    · unfold cploop_uploader_wait pipe_wait_result
      rw [if_neg hne]
    · unfold pipe_fail_msg
      rw [if_neg h2]
      by_cases h1 : ret1 = 0
      · rw [if_pos h1]
        have := strContains_parts ("" ++ ", ") (stage_frag prlcompress_p_cmd ret2) ""
        simpa [String.append_assoc] using this
      · rw [if_neg h1]
        have := strContains_parts (stage_frag (tar_c_cmd hdd) ret1 ++ ", ")
          (stage_frag prlcompress_p_cmd ret2) ""
        simpa [String.append_assoc] using this
  · intro h1
    unfold pipe_fail_msg
    rw [if_pos h1]
    by_cases h2 : ret2 = 0
    · rw [if_pos h2]
      rfl
    · rw [if_neg h2]
      simp
  · intro h2
    unfold pipe_fail_msg
    rw [if_pos h2]
    by_cases h1 : ret1 = 0
    · rw [if_pos h1]
      rfl
    · rw [if_neg h1]
      simp

/-- C6 witness: the aggregation evaluated on concrete exit statuses: both
stages zero yields success; with stage 1 at 0 and stage 2 at 2 the message
is exactly the comma-prefixed stage-2 fragment; a nonzero stage 1 makes
the wait raise. -/
theorem C6_wait_aggregation_witness :
    cploop_uploader_wait "/vz/hdd" 0 0 = Except.ok ()
    ∧ pipe_fail_msg (tar_c_cmd "/vz/hdd") 0 prlcompress_p_cmd 2
        = ", " ++ stage_frag prlcompress_p_cmd 2
    ∧ cploop_uploader_wait "/vz/hdd" 3 0 ≠ Except.ok () := by
  refine ⟨(C6_wait_aggregation "/vz/hdd" 0 0).1.mpr ⟨rfl, rfl⟩, ?_, ?_⟩
  · have h := (C6_wait_aggregation "/vz/hdd" 0 2).2.2.2.1 rfl
    simpa using h
  · intro hok
    have h := ((C6_wait_aggregation "/vz/hdd" 3 0).1.mp hok).1
    exact absurd h (by decide)

/-- C4 counterexample: a concrete `convert_image` run in which the mount
succeeds, the convert process exits 1 and the umount process exits 2.  The
surfaced error is exactly the umount failure — it does not even mention
`qemu-img` — so the convert failure is reported instead of, not in addition
to, being kept: the claim that both failures are reported is false. -/
theorem C4_counterexample :
    (convert_image_run [] "/vz/tmpl" "/tmp/out" "qcow2" "dev=/dev/ploop1" 1 2).2
      = Except.error (system_exc_msg (ploop_umount_cmd [] "/vz/tmpl/DiskDescriptor.xml") 2)
    ∧ strContains (system_exc_msg (ploop_umount_cmd [] "/vz/tmpl/DiskDescriptor.xml") 2)
        "qemu-img" = false
    ∧ system_exc_msg (ploop_umount_cmd [] "/vz/tmpl/DiskDescriptor.xml") 2
      ≠ system_exc_msg (qemu_convert_cmd [] "qcow2" "/dev/ploop1" "/tmp/out") 1 := by
  refine ⟨rfl, by decide, by decide⟩

/-- C4 (amended): in `convert_image`, once the mount output parses to a
device, the umount step runs on every exit path; when the convert fails and
the umount succeeds, the surfaced error is the convert failure; but when
the umount also fails, only the umount failure is surfaced — the convert
failure is discarded (Python 2 `finally` replaces the in-flight
exception). -/
theorem C4_convert_image_cleanup (rh : List String) (src dst fmt out dev : String)
    (r1 r2 : Int) (hdev : parse_dev out = some dev) :
    ConvOp.ploopUmount (src ++ "/DiskDescriptor.xml")
        ∈ (convert_image_run rh src dst fmt out r1 r2).1
    ∧ (r1 = 0 → r2 = 0 →
        (convert_image_run rh src dst fmt out r1 r2).2 = Except.ok ())
    ∧ (r1 ≠ 0 → r2 = 0 →
        (convert_image_run rh src dst fmt out r1 r2).2
          = Except.error (system_exc_msg (qemu_convert_cmd rh fmt dev dst) r1))
    ∧ (r2 ≠ 0 →
        (convert_image_run rh src dst fmt out r1 r2).2
          = Except.error
              (system_exc_msg (ploop_umount_cmd rh (src ++ "/DiskDescriptor.xml")) r2)) := by
  refine ⟨?_, ?_, ?_, ?_⟩
  · simp [convert_image_run, pyTryFinally, hdev]
  · intro h1 h2
    simp [convert_image_run, pyTryFinally, hdev, h1, h2]
  · intro h1 h2
    simp [convert_image_run, pyTryFinally, hdev, h1, h2]
  · intro h2
    simp [convert_image_run, pyTryFinally, hdev, h2]

/-- C4 witness: the amended theorem evaluated at a concrete run where the
mount parses, the convert fails with exit code 1 and the umount
succeeds: the umount operation is in the trace and the convert failure is
the surfaced error. -/
theorem C4_convert_image_cleanup_witness :
    ConvOp.ploopUmount "/vz/t/DiskDescriptor.xml"
        ∈ (convert_image_run [] "/vz/t" "/o" "qcow2" "dev=/dev/ploop1" 1 0).1
    ∧ (convert_image_run [] "/vz/t" "/o" "qcow2" "dev=/dev/ploop1" 1 0).2
        = Except.error
            (system_exc_msg (qemu_convert_cmd [] "qcow2" "/dev/ploop1" "/o") 1) := by
  have h := C4_convert_image_cleanup [] "/vz/t" "/o" "qcow2" "dev=/dev/ploop1"
    "/dev/ploop1" 1 0 (by decide)
  exact ⟨h.1, h.2.2.1 (by decide) rfl⟩

end PcsNova
